import Mathlib

/-!
Verification of the task-plugin discovery and loading code in this repository
(`gemini5.py` and `load_module.py`), via a shallow embedding in Lean.

The embedding models the filesystem state a discovery pass observes (the parent
directory and its candidate subdirectories), the behavior of executing a
candidate's `main.py` (which attributes it defines, whether those attributes are
callable, what its `get_name()` call does, and whether its top-level code
registers the module in `sys.modules`), and the relevant Python runtime
semantics: `importlib.util.module_from_spec` allocates a fresh module object,
`spec.loader.exec_module` runs the file's top-level code in that object, and
`importlib.reload(m)` raises `ImportError` unless `sys.modules.get(name) is m`.

Exceptions are modeled by `PyRes`; `try/except Exception` blocks in the source
become explicit handling of the `exn` case.  Module objects carry a numeric
identity (`id`) standing for Python object identity: `sys.modules` maps a module
name to the id of the registered object, and a freshly allocated module has a
new id.
-/

set_option autoImplicit false

namespace TaskLoad

/-- Result of a Python expression or statement block: either a normal value or a
raised exception (`Exception` in Python terms). -/
inductive PyRes (α : Type) where
  | ok (a : α) : PyRes α
  | exn : PyRes α
deriving DecidableEq

/-- Behavior of calling `module.get_name()` on a loaded module whose `get_name`
attribute exists and is callable: it raises, returns a non-string value, or
returns the string `s`. -/
inductive GetNameRes where
  | raises
  | retNonStr
  | retStr (s : String)
deriving DecidableEq

/-- Observable attributes a `main.py` defines on the module object when its
top-level code runs to completion. -/
structure ModAttrs where
  /-- `hasattr(module, name)` after execution. -/
  hasAttr : String → Bool
  /-- `callable(getattr(module, name))` after execution (meaningful when the
  attribute exists). -/
  callableAttr : String → Bool
  /-- what a call to the module's `get_name` does, when that attribute exists
  and is callable. -/
  getName : GetNameRes
  /-- whether the file's top-level code inserts the module object being
  executed into `sys.modules` under its spec name. -/
  registersSelf : Bool

/-- Behavior of executing a `main.py` file's top-level code. -/
inductive MainPy where
  /-- top-level code raises an exception. -/
  | raisesOnExec
  /-- top-level code completes and leaves the module with attributes `a`. -/
  | defines (a : ModAttrs)

/-- Outcome of `importlib.util.spec_from_file_location(name, path)`:
the spec is `None`, the spec exists but its `loader` is `None`, or a usable
spec with loader is produced. -/
inductive SpecRes where
  | noneSpec
  | noLoader
  | okSpec
deriving DecidableEq

/-- One entry of `os.listdir(parent)`, together with everything the two Python
functions can observe about it. -/
structure Candidate where
  /-- the entry's name (`subdir_name` / `entry`). -/
  name : String
  /-- `os.path.isdir(folder_path)`. -/
  isDir : Bool
  /-- `os.path.isfile(folder_path + "/main.py")` (checked by `get_task_module`). -/
  mainPyIsFile : Bool
  /-- `os.path.exists(subdir_path + "/main.py")` (checked by `get_task_info_list`). -/
  mainPyExists : Bool
  /-- `os.path.exists(subdir_path + "/name.txt")`. -/
  nameTxtExists : Bool
  /-- result of opening and reading `name.txt`. -/
  readNameTxt : PyRes String
  /-- outcome of `spec_from_file_location` on this candidate's `main.py`. -/
  specRes : SpecRes
  /-- behavior of executing this candidate's `main.py`. -/
  mainPy : MainPy

/-- The parent directory a discovery pass is pointed at. -/
inductive Parent where
  /-- the path does not exist: `os.path.isdir` is `False`, `os.listdir`
  raises `FileNotFoundError`. -/
  | missing
  /-- the path exists but is not a directory: `os.path.isdir` is `False`,
  `os.listdir` raises `NotADirectoryError`. -/
  | notDir
  /-- an existing directory whose listing yields `entries`. -/
  | dir (entries : List Candidate)

/-- The slice of Python interpreter state the loaders interact with: the next
fresh module-object identity and the `sys.modules` table (module name to the
identity of the registered module object). -/
structure LoadState where
  nextId : Nat
  sysModules : List (String × Nat)
deriving DecidableEq

/-- `sys.modules.get(name)`: first binding for `name`, as the id of the
registered module object. -/
def sysGet : List (String × Nat) → String → Option Nat
  | [], _ => none
  | (k, v) :: rest, name => if k = name then some v else sysGet rest name

/-- Attributes of a freshly created module object, before any plugin code has
run in it: none of the plugin hooks exist. -/
def freshAttrs : ModAttrs :=
  { hasAttr := fun _ => false
    callableAttr := fun _ => false
    getName := .raises
    registersSelf := false }

/-- A Python module object: its object identity and its observable attributes. -/
structure PyModule where
  id : Nat
  attrs : ModAttrs

/-- Calling `module.get_name()`: raises `AttributeError` when the attribute is
absent and `TypeError` when it is not callable; otherwise behaves as the
module's `getName` behavior. -/
def callGetName (a : ModAttrs) : GetNameRes :=
  if a.hasAttr "get_name" && a.callableAttr "get_name" then a.getName else .raises

/-- Whether executing this `main.py` registers its module in `sys.modules`. -/
def MainPy.registers : MainPy → Bool
  | .raisesOnExec => false
  | .defines a => a.registersSelf

/-! ## `load_module.py` -/

/-- The four hook names `get_task_module` requires
(`load_module.py`, line 47). -/
def required_funcs : List String := ["pre_proc", "post_proc", "main_proc", "get_name"]

/-- The body of the `for entry in os.listdir(task_path)` loop of
`get_task_module` (`load_module.py`, lines 22-65) for one entry: returns the
`(task_name, module)` pair appended for this candidate, if any, and the
updated interpreter state.  All exceptions inside the `try` are caught by the
`except Exception: continue` at line 63, so the result is exception-free. -/
def processEntry (c : Candidate) (st : LoadState) : Option (String × PyModule) × LoadState :=
  -- line 26: `if not os.path.isdir(folder_path): continue`
  if c.isDir = false then (none, st)
  -- line 32: `if not os.path.isfile(main_file): continue`
  else if c.mainPyIsFile = false then (none, st)
  else
    match c.specRes with
    -- line 38: `if spec is None: continue`
    | .noneSpec => (none, st)
    -- `spec.loader` is `None`: `spec.loader.exec_module` raises
    -- `AttributeError` after `module_from_spec` has allocated a module;
    -- caught at line 63.
    | .noLoader => (none, { st with nextId := st.nextId + 1 })
    | .okSpec =>
      -- line 40: `module = importlib.util.module_from_spec(spec)` allocates a
      -- fresh module object.
      let m : PyModule := { id := st.nextId, attrs := freshAttrs }
      let st1 : LoadState := { st with nextId := st.nextId + 1 }
      match c.mainPy with
      -- line 41: `spec.loader.exec_module(module)` raises; caught at line 63.
      | .raisesOnExec => (none, st1)
      | .defines a =>
        let m : PyModule := { m with attrs := a }
        -- executing the file may have inserted the module into `sys.modules`
        -- under its spec name (`entry`).
        let st2 : LoadState :=
          if a.registersSelf then
            { st1 with sysModules := (c.name, m.id) :: st1.sysModules }
          else st1
        -- line 44: `module = importlib.reload(module)`.  `reload` raises
        -- `ImportError` unless `sys.modules.get(name) is module`; on success it
        -- re-executes the same file into the same module object and returns
        -- `sys.modules[name]`, i.e. the same object with the same attributes.
        if sysGet st2.sysModules c.name = some m.id then
          -- line 48: `if not all(hasattr(module, func) for func in required_funcs): continue`
          if (required_funcs.all fun f => a.hasAttr f) = false then (none, st2)
          else
            -- lines 51-57: `task_name = module.get_name()`, with its own
            -- `try/except` and the `isinstance(task_name, str)` check.
            match callGetName a with
            | .retStr s => (some (s, m), st2)
            | .retNonStr => (none, st2)
            | .raises => (none, st2)
        else (none, st2)

/-- The whole loop of `get_task_module`: processes the entries in listing
order, collecting `task_names` and `modules` in step. -/
def goEntries : List Candidate → LoadState → List String × List PyModule × LoadState
  | [], st => ([], [], st)
  | c :: rest, st =>
    match processEntry c st with
    | (none, st') => goEntries rest st'
    | (some (s, m), st') =>
      let r := goEntries rest st'
      (s :: r.1, m :: r.2.1, r.2.2)

/-- `get_task_module(task_path)` (`load_module.py`, lines 6-67).  The
`os.listdir(task_path)` call at line 22 is outside any `try`, so a missing or
non-directory parent raises to the caller. -/
def get_task_module (p : Parent) (st : LoadState) :
    PyRes (List String × List PyModule) × LoadState :=
  match p with
  | .missing => (.exn, st)
  | .notDir => (.exn, st)
  | .dir entries =>
    let r := goEntries entries st
    (.ok (r.1, r.2.1), r.2.2)

/-! ## `gemini5.py` -/

/-- The four hook names `load_task_module` requires
(`gemini5.py`, line 8). -/
def REQUIRED_FUNCTIONS : List String := ["get_description", "pre_proc", "main_proc", "post_proc"]

/-- Python's `os.path.join` for the relative components used here. -/
def osJoin (a b : String) : String := a ++ "/" ++ b

/-- Python's `str.strip()`: remove leading and trailing whitespace. -/
def pyStrip (s : String) : String :=
  String.mk (((s.data.dropWhile Char.isWhitespace).reverse.dropWhile Char.isWhitespace).reverse)

/-- The metadata record built by `get_task_info_list`
(`gemini5.py`, lines 10-16). -/
structure TaskModuleInfo where
  name : String
  description : String
  main_py_path : String
  module_id : String
deriving DecidableEq

/-- What is on disk at a descriptor's `main_py_path` when `load_task_module`
runs: the outcome of spec resolution and the behavior of executing the file. -/
structure FileInfo where
  spec : SpecRes
  content : MainPy

/-- The `try` body of `load_task_module` (`gemini5.py`, lines 23-40), with
exceptions propagating as `PyRes.exn`.  The third component counts how many
times the entry point's top-level code was executed (calls to
`spec.loader.exec_module`). -/
def load_task_module_body (fi : FileInfo) (t : TaskModuleInfo) (st : LoadState) :
    PyRes (Option PyModule) × LoadState × Nat :=
  match fi.spec with
  -- line 26: `if not spec or not spec.loader: ... return None`
  | .noneSpec => (.ok none, st, 0)
  | .noLoader => (.ok none, st, 0)
  | .okSpec =>
    -- line 30: `module = importlib.util.module_from_spec(spec)`; a fresh
    -- module object is allocated, and (line 31) it is not registered in
    -- `sys.modules` by the loader.
    let m : PyModule := { id := st.nextId, attrs := freshAttrs }
    let st1 : LoadState := { st with nextId := st.nextId + 1 }
    match fi.content with
    -- line 32: `spec.loader.exec_module(module)` raises.
    | .raisesOnExec => (.exn, st1, 1)
    | .defines a =>
      let m : PyModule := { m with attrs := a }
      -- the plugin's own top-level code may register the module under the
      -- spec name (`task_info.module_id`).
      let st2 : LoadState :=
        if a.registersSelf then
          { st1 with sysModules := (t.module_id, m.id) :: st1.sysModules }
        else st1
      -- lines 35-38: `for func_name in REQUIRED_FUNCTIONS: if not
      -- hasattr(module, func_name) or not callable(getattr(module,
      -- func_name)): return None`
      if (REQUIRED_FUNCTIONS.all fun f => a.hasAttr f && a.callableAttr f) = false then
        (.ok none, st2, 1)
      else (.ok (some m), st2, 1)

/-- `load_task_module(task_info)` (`gemini5.py`, lines 19-44): the `try` body
wrapped by the `except Exception: return None` handler at lines 42-44. -/
def load_task_module (fi : FileInfo) (t : TaskModuleInfo) (st : LoadState) :
    PyRes (Option PyModule) × LoadState × Nat :=
  match load_task_module_body fi t st with
  | (.exn, st', n) => (.ok none, st', n)
  | r => r

/-- The body of the `for subdir_name in os.listdir(task_folder)` loop of
`get_task_info_list` (`gemini5.py`, lines 58-87) for one entry: the
`TaskModuleInfo` appended for this candidate, if any. -/
def processInfoEntry (task_folder : String) (c : Candidate) : Option TaskModuleInfo :=
  -- line 64: `if not os.path.exists(main_py_path) or not os.path.exists(name_txt_path): continue`
  if c.mainPyExists = false || c.nameTxtExists = false then none
  else
    match c.readNameTxt with
    -- lines 86-87: `except Exception`; the candidate is not appended.
    | .exn => none
    | .ok contents =>
      -- line 70: `description = f.read().strip()`
      let description := pyStrip contents
      -- line 72: `if not description: ... continue`
      if description = "" then none
      else
        some { name := c.name
               description := description
               main_py_path := osJoin (osJoin task_folder c.name) "main.py"
               module_id := c.name ++ "_main" }

/-- `get_task_info_list(task_folder)` (`gemini5.py`, lines 47-89). -/
def get_task_info_list (task_folder : String) (p : Parent) : List TaskModuleInfo :=
  match p with
  -- lines 54-56: `if not os.path.isdir(task_folder): ... return task_infos`
  | .missing => []
  | .notDir => []
  | .dir entries => entries.filterMap (processInfoEntry task_folder)

/-! ## Well-formedness of the interpreter state

Object identity: every module object registered in `sys.modules` was allocated
before the current allocation counter, so a freshly allocated module is never
already registered. -/

/-- Every id registered in `sys.modules` is below the fresh-id counter. -/
def LoadState.WF (st : LoadState) : Prop :=
  ∀ kv ∈ st.sysModules, kv.2 < st.nextId

/-- Whether a `PyRes` is a raised exception. -/
def PyRes.raised {α : Type} : PyRes α → Bool
  | .ok _ => false
  | .exn => true

/-! ## Concrete fixtures

Plugin directories used to evaluate the functions on explicit inputs. -/

/-- A candidate subdirectory with both required files present, a usable spec,
and sidecar contents `txt`; `mp` is the behavior of its `main.py`. -/
def mkCand (nm : String) (txt : String) (mp : MainPy) : Candidate :=
  { name := nm
    isDir := true
    mainPyIsFile := true
    mainPyExists := true
    nameTxtExists := true
    readNameTxt := .ok txt
    specRes := .okSpec
    mainPy := mp }

/-- A fully valid plugin module: all hooks of both flows present and callable,
`get_name()` returns `"Alpha"`, top-level code does not touch `sys.modules`. -/
def aAlpha : ModAttrs :=
  { hasAttr := fun _ => true
    callableAttr := fun _ => true
    getName := .retStr "Alpha"
    registersSelf := false }

/-- Like `aAlpha` but `get_name()` returns `"Beta"`. -/
def aBeta : ModAttrs :=
  { hasAttr := fun _ => true
    callableAttr := fun _ => true
    getName := .retStr "Beta"
    registersSelf := false }

/-- A valid plugin module whose top-level code additionally inserts the module
into `sys.modules` under its spec name; `get_name()` returns `"Gamma"`. -/
def aReg : ModAttrs :=
  { hasAttr := fun _ => true
    callableAttr := fun _ => true
    getName := .retStr "Gamma"
    registersSelf := true }

/-- A self-registering module with all four hook names present as attributes
but `pre_proc` bound to a non-callable value; `get_name()` returns `"Delta"`. -/
def aNonCallable : ModAttrs :=
  { hasAttr := fun _ => true
    callableAttr := fun s => !(s == "pre_proc")
    getName := .retStr "Delta"
    registersSelf := true }

/-- A module defining only three of `gemini5.py`'s four required hooks:
`get_description` is absent. -/
def aThree : ModAttrs :=
  { hasAttr := fun s => !(s == "get_description")
    callableAttr := fun _ => true
    getName := .retStr "Three"
    registersSelf := false }

/-- Two versions of the same entry-point file, as seen by two successive
loader calls (the file is edited in between). -/
def aV1 : ModAttrs :=
  { hasAttr := fun _ => true
    callableAttr := fun _ => true
    getName := .retStr "version one"
    registersSelf := false }

/-- Second version of the edited entry-point file. -/
def aV2 : ModAttrs :=
  { hasAttr := fun _ => true
    callableAttr := fun _ => true
    getName := .retStr "version two"
    registersSelf := false }

/-- A valid, non-registering candidate named `task_A`. -/
def cAlpha : Candidate := mkCand "task_A" "Alpha Task\n" (.defines aAlpha)

/-- A valid, non-registering candidate named `task_B`. -/
def cBeta : Candidate := mkCand "task_B" "Beta Task\n" (.defines aBeta)

/-- A valid, non-registering candidate named `task_C`. -/
def cGamma : Candidate := mkCand "task_C" "Gamma Task\n" (.defines aAlpha)

/-- A candidate whose `main.py` raises during execution (corrupt entry point). -/
def cCorrupt : Candidate := mkCand "task_bad" "Bad Task\n" .raisesOnExec

/-- A valid candidate whose module registers itself in `sys.modules`. -/
def cReg : Candidate := mkCand "task_R" "R Task\n" (.defines aReg)

/-- A self-registering candidate whose `pre_proc` attribute is not callable. -/
def cNonCallable : Candidate := mkCand "task_N" "N Task\n" (.defines aNonCallable)

/-- A candidate whose sidecar holds an identity padded with whitespace. -/
def cSide : Candidate := mkCand "task_S" " Alpha Task \n" (.defines aAlpha)

/-- A candidate whose sidecar contains only whitespace. -/
def cWs : Candidate := mkCand "task_W" "  \n " (.defines aAlpha)

/-- The initial interpreter state: no modules registered yet. -/
def st0 : LoadState := { nextId := 0, sysModules := [] }

/-- Interpreter state after the eager flow has loaded `cReg`. -/
def stReg : LoadState := { nextId := 1, sysModules := [("task_R", 0)] }

/-- The module object produced for `cReg`. -/
def mReg : PyModule := { id := 0, attrs := aReg }

/-- A descriptor for `task_A`, as `get_task_info_list` would build it. -/
def tW : TaskModuleInfo :=
  { name := "task_A"
    description := "Alpha Task"
    main_py_path := "tasks/task_A/main.py"
    module_id := "task_A_main" }

/-- On-disk state: `main.py` resolves and defines `aAlpha`. -/
def fiAlpha : FileInfo := { spec := .okSpec, content := .defines aAlpha }

/-- On-disk state: `main.py` resolves and defines only three hooks. -/
def fiThree : FileInfo := { spec := .okSpec, content := .defines aThree }

/-- On-disk state seen by the first loader call. -/
def fiV1 : FileInfo := { spec := .okSpec, content := .defines aV1 }

/-- On-disk state seen by the second loader call, after the file was edited. -/
def fiV2 : FileInfo := { spec := .okSpec, content := .defines aV2 }

/-! ## Helper lemmas -/

theorem sysGet_mem {l : List (String × Nat)} {k : String} {v : Nat}
    (h : sysGet l k = some v) : (k, v) ∈ l := by
  induction l with
  | nil => simp [sysGet] at h
  | cons p rest ih =>
    obtain ⟨k', v'⟩ := p
    simp only [sysGet] at h
    split at h
    · rename_i hk
      cases h
      subst hk
      exact List.mem_cons_self _ _
    · exact List.mem_cons_of_mem _ (ih h)

theorem LoadState.WF.bump {st : LoadState} (h : st.WF) :
    LoadState.WF { st with nextId := st.nextId + 1 } := by
  intro kv hkv
  exact Nat.lt_succ_of_lt (h kv hkv)

/-- With a well-formed state, `sys.modules` cannot already hold the module
object that is about to be freshly allocated. -/
theorem sysGet_ne_fresh {st : LoadState} (h : st.WF) (k : String) :
    ¬ sysGet st.sysModules k = some st.nextId := by
  intro hc
  exact absurd (h _ (sysGet_mem hc)) (lt_irrefl _)

/-- A `(task_name, module)` pair appended by the `get_task_module` loop came
from a successful, string-returning `get_name()` call on that very module, and
the module passed the `hasattr` check for all four required hooks. -/
theorem processEntry_some {c : Candidate} {st st' : LoadState} {s : String} {m : PyModule}
    (h : processEntry c st = (some (s, m), st')) :
    callGetName m.attrs = .retStr s ∧
    (required_funcs.all fun f => m.attrs.hasAttr f) = true := by
  unfold processEntry at h
  repeat' (first | split at h | simp only [] at h)
  all_goals try (solve | simp at h)
  all_goals simp only [Prod.mk.injEq, Option.some.injEq] at h
  all_goals obtain ⟨⟨hs, hm⟩, -⟩ := h
  all_goals subst hs
  all_goals subst hm
  all_goals exact ⟨by assumption, by simp_all⟩

/-- If the candidate's `main.py` does not register its module in
`sys.modules`, `importlib.reload` raises `ImportError`, the handler skips the
candidate, and no pair is appended; the interpreter state stays well-formed. -/
theorem processEntry_no_register {c : Candidate} {st : LoadState}
    (hreg : c.mainPy.registers = false) (hwf : st.WF) :
    (processEntry c st).1 = none ∧ (processEntry c st).2.WF := by
  unfold processEntry
  split
  · exact ⟨rfl, hwf⟩
  · split
    · exact ⟨rfl, hwf⟩
    · cases hsr : c.specRes
      · exact ⟨rfl, hwf⟩
      · exact ⟨rfl, hwf.bump⟩
      · cases hmp : c.mainPy
        · exact ⟨rfl, hwf.bump⟩
        · rename_i a
          have ha : a.registersSelf = false := by
            rw [hmp] at hreg
            simpa [MainPy.registers] using hreg
          simp only [ha, if_false, Bool.false_eq_true]
          rw [if_neg (sysGet_ne_fresh hwf c.name)]
          exact ⟨rfl, hwf.bump⟩

/-- The two lists built by the `get_task_module` loop stay index-aligned:
same length, and the name at each position is the `get_name()` result of the
module at the same position. -/
theorem goEntries_align (entries : List Candidate) (st : LoadState) :
    (goEntries entries st).1.length = (goEntries entries st).2.1.length ∧
    ∀ i : Nat, ((goEntries entries st).2.1[i]?).map (fun m => callGetName m.attrs) =
      ((goEntries entries st).1[i]?).map GetNameRes.retStr := by
  induction entries generalizing st with
  | nil => simp [goEntries]
  | cons c rest ih =>
    simp only [goEntries]
    cases hpe : processEntry c st with
    | mk o st1 =>
      cases o with
      | none => exact ih st1
      | some p =>
        obtain ⟨s, m⟩ := p
        have hcall := (processEntry_some hpe).1
        refine ⟨by simpa using (ih st1).1, ?_⟩
        intro i
        cases i with
        | zero => simp [hcall]
        | succ j => simpa using (ih st1).2 j

/-- Every module in the list built by the `get_task_module` loop passed the
`hasattr` check for all four required hooks. -/
theorem goEntries_mods_hasattr (entries : List Candidate) (st : LoadState) :
    ∀ m ∈ (goEntries entries st).2.1,
      (required_funcs.all fun f => m.attrs.hasAttr f) = true := by
  induction entries generalizing st with
  | nil => simp [goEntries]
  | cons c rest ih =>
    simp only [goEntries]
    cases hpe : processEntry c st with
    | mk o st1 =>
      cases o with
      | none => exact ih st1
      | some p =>
        obtain ⟨s, m⟩ := p
        intro m2 hm2
        simp only [List.mem_cons] at hm2
        rcases hm2 with rfl | hm2
        · exact (processEntry_some hpe).2
        · exact ih st1 m2 hm2

/-- When no candidate's `main.py` registers itself in `sys.modules`, the
`importlib.reload` call raises `ImportError` for every candidate that reaches
it, and the loop accumulates nothing. -/
theorem goEntries_no_register (entries : List Candidate) (st : LoadState)
    (hwf : st.WF) (hreg : ∀ c ∈ entries, c.mainPy.registers = false) :
    (goEntries entries st).1 = [] ∧ (goEntries entries st).2.1 = [] := by
  induction entries generalizing st with
  | nil => simp [goEntries]
  | cons c rest ih =>
    simp only [goEntries]
    have hzero := processEntry_no_register (hreg c (List.mem_cons_self c rest)) hwf
    cases hpe : processEntry c st with
    | mk o st1 =>
      rw [hpe] at hzero
      cases o with
      | none => exact ih st1 hzero.2 (fun c2 hc2 => hreg c2 (List.mem_cons_of_mem c hc2))
      | some p => exact absurd hzero.1 (by simp)

/-- A module returned by the `try` body of `load_task_module` passed the
`hasattr` + `callable` gate for all four `REQUIRED_FUNCTIONS`. -/
theorem load_task_module_body_some {fi : FileInfo} {t : TaskModuleInfo}
    {st st' : LoadState} {m : PyModule} {n : Nat}
    (h : load_task_module_body fi t st = (.ok (some m), st', n)) :
    (REQUIRED_FUNCTIONS.all fun f => m.attrs.hasAttr f && m.attrs.callableAttr f) = true := by
  unfold load_task_module_body at h
  repeat' (first | split at h | simp only [] at h)
  all_goals try (solve | simp at h)
  all_goals simp only [Prod.mk.injEq, PyRes.ok.injEq, Option.some.injEq] at h
  all_goals obtain ⟨hm, -⟩ := h
  all_goals subst hm
  all_goals simp_all

/-- `load_task_module` either returns what its `try` body produced, or the
handler has replaced a raised exception by `None`. -/
theorem load_task_module_cases (fi : FileInfo) (t : TaskModuleInfo) (st : LoadState) :
    load_task_module fi t st = load_task_module_body fi t st ∨
    (load_task_module fi t st).1 = .ok none := by
  unfold load_task_module
  rcases hb : load_task_module_body fi t st with ⟨r, s2, n2⟩
  cases r with
  | ok a => left; rfl
  | exn => right; rfl

/-- A module returned by `load_task_module` passed the `hasattr` + `callable`
gate for all four `REQUIRED_FUNCTIONS`. -/
theorem load_task_module_some {fi : FileInfo} {t : TaskModuleInfo}
    {st st' : LoadState} {m : PyModule} {n : Nat}
    (h : load_task_module fi t st = (.ok (some m), st', n)) :
    (REQUIRED_FUNCTIONS.all fun f => m.attrs.hasAttr f && m.attrs.callableAttr f) = true := by
  rcases load_task_module_cases fi t st with hc | hc
  · exact load_task_module_body_some (hc ▸ h)
  · rw [h] at hc
    simp at hc

/-! ## Claims -/

/-- C1: evaluation of `get_task_module` at the claim's failing input.  A parent
directory with two candidates — `task_A`, a fully valid plugin (all four hooks
defined and callable, `get_name()` returning `"Alpha"`), and `task_bad`, whose
entry point raises on execution — yields zero loaded plugins, not N−1 = 1: the
unconditional `importlib.reload` at `load_module.py:44` raises `ImportError`
for the valid candidate too, because the freshly executed module was never
registered in `sys.modules`. -/
theorem eager_isolation_failing_eval :
    (get_task_module (.dir [cAlpha, cCorrupt]) st0).1 = .ok ([], []) := rfl

/-- C2: evaluation of `get_task_module` at the claim's failing input.  A parent
directory with a single subdirectory `task_B` whose `main.py` defines all four
required hooks and whose `get_name()` returns the string `"Beta"` produces no
`(identity, module)` pair at all: the `importlib.reload` at `load_module.py:44`
raises `ImportError` because the module was never registered in `sys.modules`,
and the per-candidate handler drops the candidate. -/
theorem eager_valid_candidate_dropped_eval :
    (get_task_module (.dir [cBeta]) st0).1 = .ok ([], []) := rfl

/-- C3: for an existing parent directory, if no candidate's top-level code
inserts its own module into `sys.modules`, `get_task_module` returns a pair of
two empty lists: `importlib.reload` on a never-registered module raises
`ImportError` for every candidate that reaches it, and the per-candidate
handler skips the candidate. -/
theorem get_task_module_unregistered_empty
    (entries : List Candidate) (st : LoadState) (hwf : st.WF)
    (hreg : ∀ c ∈ entries, c.mainPy.registers = false) :
    (get_task_module (.dir entries) st).1 = .ok ([], []) := by
  have h := goEntries_no_register entries st hwf hreg
  simp only [get_task_module]
  rw [h.1, h.2]

/-- Witness for C3: a concrete directory with one fully valid, non-registering
candidate gives `([], [])`. -/
theorem get_task_module_unregistered_empty_witness :
    (get_task_module (.dir [cGamma]) st0).1 = .ok ([], []) :=
  get_task_module_unregistered_empty [cGamma] st0
    (by intro kv hkv; simp [st0] at hkv)
    (by intro c hc; rw [List.mem_singleton] at hc; subst hc; rfl)

/-- C4 counterexample: `get_task_module` on a non-existent parent path does not
return a pair of empty lists — the `os.listdir` call at `load_module.py:22` is
outside any `try`, so the `FileNotFoundError` propagates to the caller. -/
theorem get_task_module_missing_path_raises :
    ((get_task_module .missing st0).1).raised = true := rfl

/-- C4 amended: discovery against a non-existent (or non-directory) parent path
returns an empty list without raising in the metadata-first flow
(`get_task_info_list`), but the eager flow (`get_task_module`) propagates the
`os.listdir` exception to its caller. -/
theorem empty_path_behavior (task_folder : String) (st : LoadState) :
    get_task_info_list task_folder .missing = [] ∧
    get_task_info_list task_folder .notDir = [] ∧
    ((get_task_module .missing st).1).raised = true ∧
    ((get_task_module .notDir st).1).raised = true :=
  ⟨rfl, rfl, rfl, rfl⟩

/-- C9: `load_task_module` never propagates an exception: every exception
raised inside its `try` body (spec resolution, top-level execution, hook
validation) is caught by the `except Exception` handler, which returns `None`. -/
theorem load_task_module_never_raises (fi : FileInfo) (t : TaskModuleInfo) (st : LoadState) :
    ((load_task_module fi t st).1).raised = false := by
  unfold load_task_module
  rcases hb : load_task_module_body fi t st with ⟨r, s2, n2⟩
  cases r with
  | ok a => rfl
  | exn => rfl

/-- C10: the two lists returned by `get_task_module` have equal length, and the
identity at each position is exactly the string returned by invoking
`get_name()` on the module at the same position. -/
theorem eager_lists_index_aligned
    (entries : List Candidate) (st : LoadState)
    (names : List String) (mods : List PyModule) (st' : LoadState)
    (h : get_task_module (.dir entries) st = (.ok (names, mods), st')) :
    names.length = mods.length ∧
    ∀ i : Nat, (mods[i]?.map fun m => callGetName m.attrs) = names[i]?.map GetNameRes.retStr := by
  have ha := goEntries_align entries st
  simp only [get_task_module, Prod.mk.injEq, PyRes.ok.injEq] at h
  obtain ⟨⟨h1, h2⟩, -⟩ := h
  rw [← h1, ← h2]
  exact ha

/-- Witness for C10: a run that returns one pair, checked at index 0. -/
theorem eager_lists_index_aligned_witness :
    (["Gamma"] : List String).length = [mReg].length ∧
    ([mReg][0]?.map fun m => callGetName m.attrs) = (["Gamma"][0]?.map GetNameRes.retStr) := by
  have h := eager_lists_index_aligned [cReg] st0 ["Gamma"] [mReg] stReg rfl
  exact ⟨h.1, h.2 0⟩

/-- C5: a candidate whose entry point defines only three of the four required
hooks never appears in a successful load result: `load_task_module` returns
`None` for its descriptor, and every module in `get_task_module`'s returned
list has all four of that flow's required hooks as attributes. -/
theorem three_hook_candidate_rejected
    (fi : FileInfo) (t : TaskModuleInfo) (st : LoadState) (a : ModAttrs) (f : String)
    (entries : List Candidate) (st2 : LoadState) :
    (fi.content = .defines a → f ∈ REQUIRED_FUNCTIONS → a.hasAttr f = false →
      (load_task_module fi t st).1 = .ok none) ∧
    (∀ names mods st3 g, get_task_module (.dir entries) st2 = (.ok (names, mods), st3) →
      g ∈ required_funcs → ∀ m ∈ mods, m.attrs.hasAttr g = true) := by
  constructor
  · intro hc hf hna
    have hall : (REQUIRED_FUNCTIONS.all fun x => a.hasAttr x && a.callableAttr x) = false := by
      rw [List.all_eq_false]
      exact ⟨f, hf, by simp [hna]⟩
    cases hs : fi.spec
    · simp [load_task_module, load_task_module_body, hs]
    · simp [load_task_module, load_task_module_body, hs]
    · simp [load_task_module, load_task_module_body, hs, hc, hall]
  · intro names mods st3 g h hg m hm
    simp only [get_task_module, Prod.mk.injEq, PyRes.ok.injEq] at h
    obtain ⟨⟨-, h2⟩, -⟩ := h
    have hmem : m ∈ (goEntries entries st2).2.1 := by rw [h2]; exact hm
    have hall := goEntries_mods_hasattr entries st2 m hmem
    rw [List.all_eq_true] at hall
    exact hall g hg

/-- Witness for C5: a module missing `get_description` is refused by
`load_task_module`, and a module appearing in an eager result has the
`get_name` hook as an attribute. -/
theorem three_hook_candidate_rejected_witness :
    (load_task_module fiThree tW st0).1 = .ok none ∧
    mReg.attrs.hasAttr "get_name" = true := by
  constructor
  · exact (three_hook_candidate_rejected fiThree tW st0 aThree "get_description" [] st0).1
      rfl (by decide) rfl
  · exact (three_hook_candidate_rejected fiThree tW st0 aThree "get_description" [cReg] st0).2
      ["Gamma"] [mReg] stReg "get_name" rfl (by decide) mReg (List.mem_singleton.mpr rfl)

/-- C6 counterexample: the eager flow checks only `hasattr`, not `callable`:
a self-registering module whose `pre_proc` attribute is not callable is
returned by `get_task_module` all the same. -/
theorem eager_noncallable_hook_returned :
    (get_task_module (.dir [cNonCallable]) st0).1 =
      .ok (["Delta"], [{ id := 0, attrs := aNonCallable }]) ∧
    aNonCallable.callableAttr "pre_proc" = false :=
  ⟨rfl, rfl⟩

/-- C6 amended: a module returned by `load_task_module` has all four of its
required hooks present *and* callable; a module returned inside
`get_task_module`'s list has all four of that flow's required hooks present as
attributes, but their callability is not checked there. -/
theorem hook_presence_per_flow
    (fi : FileInfo) (t : TaskModuleInfo) (st : LoadState)
    (entries : List Candidate) (st2 : LoadState) :
    (∀ m st' n, load_task_module fi t st = (.ok (some m), st', n) →
      ∀ f ∈ REQUIRED_FUNCTIONS, m.attrs.hasAttr f = true ∧ m.attrs.callableAttr f = true) ∧
    (∀ names mods st3, get_task_module (.dir entries) st2 = (.ok (names, mods), st3) →
      ∀ m ∈ mods, ∀ g ∈ required_funcs, m.attrs.hasAttr g = true) := by
  constructor
  · intro m st' n h f hf
    have hall := load_task_module_some h
    rw [List.all_eq_true] at hall
    have := hall f hf
    simp only [Bool.and_eq_true] at this
    exact this
  · intro names mods st3 h m hm g hg
    simp only [get_task_module, Prod.mk.injEq, PyRes.ok.injEq] at h
    obtain ⟨⟨-, h2⟩, -⟩ := h
    have hmem : m ∈ (goEntries entries st2).2.1 := by rw [h2]; exact hm
    have hall := goEntries_mods_hasattr entries st2 m hmem
    rw [List.all_eq_true] at hall
    exact hall g hg

/-- Witness for C6's amended statement: the lazy flow's check at `pre_proc`
on a returned module, and the eager flow's `hasattr`-only check on `mReg`. -/
theorem hook_presence_per_flow_witness :
    (aAlpha.hasAttr "pre_proc" = true ∧ aAlpha.callableAttr "pre_proc" = true) ∧
    mReg.attrs.hasAttr "pre_proc" = true := by
  constructor
  · exact (hook_presence_per_flow fiAlpha tW st0 [] st0).1 { id := 0, attrs := aAlpha }
      { nextId := 1, sysModules := [] } 1 rfl "pre_proc" (by decide)
  · exact (hook_presence_per_flow fiAlpha tW st0 [cReg] st0).2
      ["Gamma"] [mReg] stReg rfl mReg (List.mem_singleton.mpr rfl) "pre_proc" (by decide)

/-- C7: every descriptor returned by `get_task_info_list` carries a non-empty
description equal to the stripped contents of that candidate's `name.txt`, and
a candidate whose `name.txt` holds only whitespace is excluded. -/
theorem info_list_identity_from_sidecar
    (task_folder : String) (entries : List Candidate) (c : Candidate) (s : String) :
    (∀ info ∈ get_task_info_list task_folder (.dir entries),
      info.description ≠ "" ∧
      ∃ c2 ∈ entries, c2.name = info.name ∧
        ∃ s2, c2.readNameTxt = .ok s2 ∧ info.description = pyStrip s2) ∧
    (c.readNameTxt = .ok s → pyStrip s = "" → processInfoEntry task_folder c = none) := by
  constructor
  · intro info hinfo
    simp only [get_task_info_list, List.mem_filterMap] at hinfo
    obtain ⟨c2, hc2, hpc⟩ := hinfo
    unfold processInfoEntry at hpc
    split at hpc
    · simp at hpc
    · cases hr : c2.readNameTxt <;> rw [hr] at hpc
      case exn => simp at hpc
      case ok s2 =>
        simp only [] at hpc
        split at hpc
        · simp at hpc
        · rename_i hne
          rw [Option.some.injEq] at hpc
          subst hpc
          exact ⟨hne, c2, hc2, rfl, s2, hr, rfl⟩
  · intro h1 h2
    unfold processInfoEntry
    split
    · rfl
    · rw [h1]
      simp only []
      rw [if_pos h2]

/-- Witness for C7: a padded sidecar yields the stripped non-empty identity,
and a whitespace-only sidecar is excluded. -/
theorem info_list_identity_from_sidecar_witness :
    ({ name := "task_S"
       description := "Alpha Task"
       main_py_path := "tasks/task_S/main.py"
       module_id := "task_S_main" } : TaskModuleInfo).description ≠ "" ∧
    processInfoEntry "tasks" cWs = none := by
  constructor
  · exact ((info_list_identity_from_sidecar "tasks" [cSide, cWs] cWs "  \n ").1 _
      (by rw [show get_task_info_list "tasks" (Parent.dir [cSide, cWs]) =
            [{ name := "task_S"
               description := "Alpha Task"
               main_py_path := "tasks/task_S/main.py"
               module_id := "task_S_main" }] from rfl]
          exact List.mem_singleton.mpr rfl)).1
  · exact (info_list_identity_from_sidecar "tasks" [cSide, cWs] cWs "  \n ").2 rfl (by decide)

/-- C8: each successful `load_task_module` call executes the entry point's
top-level code exactly once (the count component is 1), in a freshly allocated
module object, and the loader registers nothing in `sys.modules`; two
successive calls on the same descriptor yield modules with distinct object
identities, and the second call's module reflects the file contents seen by
that call (`fi2`). -/
theorem loader_fresh_per_call
    (fi1 fi2 : FileInfo) (t : TaskModuleInfo) (st : LoadState) (a1 a2 : ModAttrs)
    (h1s : fi1.spec = .okSpec) (h1c : fi1.content = .defines a1)
    (h2s : fi2.spec = .okSpec) (h2c : fi2.content = .defines a2)
    (h1r : a1.registersSelf = false) (h2r : a2.registersSelf = false)
    (h1v : (REQUIRED_FUNCTIONS.all fun f => a1.hasAttr f && a1.callableAttr f) = true)
    (h2v : (REQUIRED_FUNCTIONS.all fun f => a2.hasAttr f && a2.callableAttr f) = true) :
    load_task_module fi1 t st =
      (.ok (some { id := st.nextId, attrs := a1 }), { st with nextId := st.nextId + 1 }, 1) ∧
    load_task_module fi2 t { st with nextId := st.nextId + 1 } =
      (.ok (some { id := st.nextId + 1, attrs := a2 }),
        { st with nextId := st.nextId + 1 + 1 }, 1) ∧
    st.nextId ≠ st.nextId + 1 := by
  refine ⟨?_, ?_, Nat.ne_of_lt (Nat.lt_succ_self _)⟩
  · simp [load_task_module, load_task_module_body, h1s, h1c, h1r, h1v]
  · simp [load_task_module, load_task_module_body, h2s, h2c, h2r, h2v]

/-- Witness for C8: two calls on the descriptor for `task_A`, with the entry
point edited between the calls: fresh ids 0 and 1, count 1 each, no
`sys.modules` registration, second result reflecting the edited file. -/
theorem loader_fresh_per_call_witness :
    load_task_module fiV1 tW st0 =
      (.ok (some { id := 0, attrs := aV1 }), { st0 with nextId := 1 }, 1) ∧
    load_task_module fiV2 tW { st0 with nextId := 1 } =
      (.ok (some { id := 1, attrs := aV2 }), { st0 with nextId := 2 }, 1) ∧
    (0 : Nat) ≠ 1 := by
  exact loader_fresh_per_call fiV1 fiV2 tW st0 aV1 aV2 rfl rfl rfl rfl rfl rfl
    (by decide) (by decide)

end TaskLoad
